import Mathlib

/-!
Verification of the SBDP property-price serving pipeline (`backend/main.py`).

Shallow embedding conventions:
* Python floats are modelled as `ℚ`; the float NaN used as the "unknown"
  sentinel (`np.nan`) is an explicit constructor of `FVal`.
* A scikit-learn `LabelEncoder` is modelled by its `classes_` list (sorted,
  duplicate-free strings); `transform [v]` returns the index of `v` in it.
* Python dicts with string/number keys are modelled as association lists in
  insertion order; `dict.get` is `List.lookup`.
* Python's built-in `round` rounds half to even; `sorted` is a stable sort,
  modelled by `List.insertionSort` (also stable).
* The trained regressors are opaque pickled artifacts; they are parameters
  of the embedded handlers (an arbitrary function from an encoded row to a
  raw log-scale output), as are the artifact-file contents
  (`shap_importance.json`, `district_forecasts.json`, `economic_data_all.csv`).
* The inverse transform `np.expm1` is modelled over `ℝ` in a separate
  section, since it is transcendental.
-/

namespace SBDP

/-- A float feature value: either the NaN "unknown" sentinel (`np.nan`) or an
ordinary numeric value. -/
inductive FVal where
  | nan : FVal
  | num : ℚ → FVal
deriving DecidableEq

/-- Floor of a rational, written so that it evaluates in the kernel
(`Int./` is Euclidean division, which agrees with the floor for a positive
denominator). -/
def ratFloor (q : ℚ) : ℤ := q.num / (q.den : ℤ)

/-- Python's built-in `round` to an integer: nearest integer, ties to even
(banker's rounding). -/
def pyRoundInt (q : ℚ) : ℤ :=
  if q - ratFloor q < 1/2 then ratFloor q
  else if 1/2 < q - ratFloor q then ratFloor q + 1
  else if ratFloor q % 2 = 0 then ratFloor q else ratFloor q + 1

/-- Python's `round(q, n)`: round to `n` decimal digits, ties to even. -/
def pyRound (n : ℕ) (q : ℚ) : ℚ :=
  (pyRoundInt (q * 10 ^ n) : ℚ) / 10 ^ n

/-- `le.transform([value])[0]` for a scikit-learn `LabelEncoder`: the index of
`value` in the (sorted, duplicate-free) `classes_` list. -/
def transform (classes : List String) (value : String) : ℕ :=
  classes.indexOf value

/-- `safe_encode` from `backend/main.py:79-85`: return the code of `value` if
known; otherwise the code of the (truthy) `fallback` if that is known;
otherwise `0`. -/
def safe_encode (classes : List String) (value : String) (fallback : Option String) : ℕ :=
  if value ∈ classes then transform classes value
  else
    match fallback with
    | some fb => if fb ≠ "" ∧ fb ∈ classes then transform classes fb else 0
    | none => 0

/-- Request schema `PropertyInput` from `backend/main.py:62-70`
(optional numbers are `None` by default). -/
structure PropertyInput where
  property_type : String
  location : String
  bedrooms : Option ℚ := none
  bathrooms : Option ℚ := none
  land_size_perches : Option ℚ := none
  is_for_rent : ℤ := 0
  quality_tier : ℤ := 0
  is_furnished : ℤ := 0
deriving DecidableEq

/-- The two label-encoder artifacts used by `/predict`
(`encoders["property_type"]`, `encoders["location"]`), each given by its
`classes_` list. -/
structure Encoders where
  property_type : List String
  location : List String
deriving DecidableEq

/-- `x if x is not None else np.nan` applied to an optional numeric field. -/
def ofOpt : Option ℚ → FVal
  | none => FVal.nan
  | some q => FVal.num q

/-- `FEATURES` from `backend/main.py:54-55`. -/
def FEATURES : List String :=
  ["property_type", "location", "bedrooms", "bathrooms",
   "land_size_perches", "is_for_rent", "quality_tier", "is_furnished"]

/-- The single-row DataFrame `X` built in `predict` (`backend/main.py:112-126`),
as an ordered (column name, value) list: categorical codes via `safe_encode`
(location falls back to `"Colombo"`, property type has no fallback), optional
numerics via the NaN sentinel, the remaining ints passed through. -/
def encodeRow (enc : Encoders) (p : PropertyInput) : List (String × FVal) :=
  let pt_enc := safe_encode enc.property_type p.property_type none
  let loc_enc := safe_encode enc.location p.location (some "Colombo")
  [("property_type", FVal.num pt_enc),
   ("location", FVal.num loc_enc),
   ("bedrooms", ofOpt p.bedrooms),
   ("bathrooms", ofOpt p.bathrooms),
   ("land_size_perches", ofOpt p.land_size_perches),
   ("is_for_rent", FVal.num p.is_for_rent),
   ("quality_tier", FVal.num p.quality_tier),
   ("is_furnished", FVal.num p.is_furnished)]

/-- `shap_bar` from `backend/main.py:134-137`: the global
`shap_importance.json` items sorted by descending importance (Python's
`sorted` with key `-x[1]`, a stable sort), each importance rounded to 4
digits. -/
def shap_bar (shap_importance : List (String × ℚ)) : List (String × ℚ) :=
  (shap_importance.insertionSort (fun a b => b.2 ≤ a.2)).map
    (fun fi => (fi.1, pyRound 4 fi.2))

/-- Sum of the contribution values of a (feature, contribution) list. -/
def contribSum (contribs : List (String × ℚ)) : ℚ :=
  (contribs.map Prod.snd).sum

/-- The request-dependent numeric core of the `/predict` response
(`backend/main.py:139-149`): the raw log-scale model output for the encoded
row, and the `shap_features` list.  The price fields are the inverse
transform `expm1` of `log_pred` and are treated in the real-valued section
below. -/
structure PredictResponse where
  log_pred : ℚ
  shap_features : List (String × ℚ)
deriving DecidableEq

/-- The `/predict` handler (`backend/main.py:109-149`), parametric in the
opaque trained regressor `model` (raw log-scale output on an encoded row)
and the `shap_importance.json` artifact contents. -/
def predict (model : List (String × FVal) → ℚ) (shap_importance : List (String × ℚ))
    (enc : Encoders) (p : PropertyInput) : PredictResponse :=
  { log_pred := model (encodeRow enc p),
    shap_features := shap_bar shap_importance }

/-- Request schema `ForecastInput` from `backend/main.py:72-76`. -/
structure ForecastInput where
  district : String
  property_type : String
  land_size_perches : Option ℚ := none
  bedrooms : Option ℚ := none
deriving DecidableEq

/-- One precomputed entry of the `district_forecasts.json` artifact: a
year → price mapping (in file order) and a stored 4-year growth
percentage. -/
structure CacheEntry where
  prices : List (ℕ × ℤ)
  growth_4yr_pct : ℚ
deriving DecidableEq

/-- The `district_forecasts.json` artifact: district → property type →
precomputed entry.  Year keys are JSON strings `"2026"`..`"2030"` in the
source; as they are all 4-digit numerals, string order and numeric order
agree, so years are modelled as `ℕ`. -/
abbrev Cache : Type := List (String × List (String × CacheEntry))

/-- The cache test `district in district_forecasts and ptype in
district_forecasts[district]` of `backend/main.py:157`, together with the
entry lookup of `backend/main.py:158`. -/
def lookup2 (cache : Cache) (district ptype : String) : Option CacheEntry :=
  match cache.lookup district with
  | some byType => byType.lookup ptype
  | none => none

/-- The year list iterated by the live-compute loop (`backend/main.py:170`). -/
def FORECAST_YEARS : List ℕ := [2026, 2027, 2028, 2029, 2030]

/-- The live-compute loop of `backend/main.py:169-191`.  `econYears` is the
set of `year` values with a row in the `economic_data_all.csv` artifact; a
year with no row is skipped (`continue`).  The opaque forecast regressor,
the row assembly and the inverse transform are abstracted into `predPrice`:
`predPrice year` stands for `round(float(np.expm1(forecast_model.predict(row_for(year)))))`,
the rounded de-logged model output for the row built at that year. -/
def livePrices (econYears : List ℕ) (predPrice : ℕ → ℤ) : List (ℕ × ℤ) :=
  FORECAST_YEARS.foldl
    (fun acc year =>
      if year ∈ econYears then acc ++ [(year, predPrice year)] else acc)
    []

/-- The live-path growth computation of `backend/main.py:193-195`:
`p2026 = prices.get("2026", 1)`, `p2030 = prices.get("2030", p2026)`,
growth rounded to one digit when `p2026 > 0`, else `0`. -/
def growth_4yr_live (prices : List (ℕ × ℤ)) : ℚ :=
  let p2026 : ℤ := (prices.lookup 2026).getD 1
  let p2030 : ℤ := (prices.lookup 2030).getD p2026
  if 0 < p2026 then pyRound 1 (((p2030 : ℚ) - (p2026 : ℚ)) / (p2026 : ℚ) * 100) else 0

/-- `base_price` from `backend/main.py:199`:
`prices.get("2026", list(prices.values())[0] if prices else 1)`. -/
def base_price (prices : List (ℕ × ℤ)) : ℤ :=
  (prices.lookup 2026).getD (match prices with | [] => 1 | kv :: _ => kv.2)

/-- One element of the `yearly` list of the forecast response
(`backend/main.py:203-208`). -/
structure YearEntry where
  year : ℕ
  price : ℤ
  growth_from_2026_pct : ℚ
deriving DecidableEq

/-- The year-by-year result loop of `backend/main.py:198-208`: iterate the
price mapping in sorted key order (`sorted(prices.keys())`, a stable sort;
keys are distinct) and attach the zero-guarded growth relative to
`base_price`. -/
def yearly (prices : List (ℕ × ℤ)) : List YearEntry :=
  let base := base_price prices
  (prices.insertionSort (fun a b => a.1 ≤ b.1)).map
    (fun yp =>
      { year := yp.1,
        price := yp.2,
        growth_from_2026_pct :=
          if 0 < base then pyRound 1 (((yp.2 : ℚ) - (base : ℚ)) / (base : ℚ) * 100) else 0 })

/-- The investment-signal thresholds of `backend/main.py:211-219`. -/
def investment_signal (growth_4yr : ℚ) : String :=
  if growth_4yr ≥ 20 then "BUY"
  else if growth_4yr ≥ 10 then "HOLD"
  else "WAIT"

/-- The `/forecast` response fields the claims are about
(`backend/main.py:221-229`). -/
structure ForecastResponse where
  district : String
  property_type : String
  yearly : List YearEntry
  growth_4yr_pct : ℚ
  investment_signal : String
deriving DecidableEq

/-- The `/forecast` handler (`backend/main.py:151-229`), parametric in the
`district_forecasts.json` cache artifact, the years present in the economic
reference table, and the opaque forecast regressor (see `livePrices`): on a
cache hit the precomputed prices and stored growth are used directly;
otherwise prices are computed live and growth via `growth_4yr_live`. -/
def forecast (cache : Cache) (econYears : List ℕ)
    (predPrice : ForecastInput → ℕ → ℤ) (inp : ForecastInput) : ForecastResponse :=
  let pg : List (ℕ × ℤ) × ℚ :=
    match lookup2 cache inp.district inp.property_type with
    | some pre => (pre.prices, pre.growth_4yr_pct)
    | none =>
      let ps := livePrices econYears (predPrice inp)
      (ps, growth_4yr_live ps)
  { district := inp.district,
    property_type := inp.property_type,
    yearly := yearly pg.1,
    growth_4yr_pct := pg.2,
    investment_signal := investment_signal pg.2 }

/-! ### Concrete artifact instances

Small closed instances of the (opaque, deployment-time) artifacts, used to
evaluate the embedded handlers at concrete inputs. -/

/-- A concrete pair of encoder tables: three property types, two locations
(so `"Colombo"` has code 1, not 0). -/
def exEnc : Encoders :=
  { property_type := ["Apartment", "House", "Land"],
    location := ["Anuradhapura", "Colombo"] }

/-- A concrete stand-in for the opaque trained regressor: it reads off the
encoded location code, so it distinguishes rows that differ in location. -/
def exModel (row : List (String × FVal)) : ℚ :=
  match row.lookup "location" with
  | some (FVal.num q) => q
  | _ => 0

/-- A concrete `shap_importance.json` content. -/
def exImp : List (String × ℚ) :=
  [("District / Location", 2), ("Land Size (Perches)", 1)]

/-- A valuation request with a known location of code 0. -/
def exReq1 : PropertyInput := { property_type := "Land", location := "Anuradhapura" }

/-- A valuation request with a known location of code 1. -/
def exReq2 : PropertyInput := { property_type := "Land", location := "Colombo" }

/-- A valuation request leaving `bedrooms` unset and supplying the other two
optional numerics. -/
def exReq7 : PropertyInput :=
  { property_type := "Land", location := "Colombo",
    bathrooms := some 2, land_size_perches := some 20 }

/-- A concrete one-entry `district_forecasts.json` cache. -/
def exCache : Cache :=
  [("Colombo", [("Land", { prices := [(2026, 100), (2030, 150)], growth_4yr_pct := 50 })])]

/-- A forecast request for the cached segment. -/
def exForecastReq : ForecastInput := { district := "Colombo", property_type := "Land" }

/-- `np.expm1`: the inverse of the `log1p` transform applied to the target at
training time, `expm1 x = exp x - 1` (`backend/main.py:129,131-132`). -/
noncomputable def expm1 (x : ℝ) : ℝ := Real.exp x - 1

/-- `log_rmse` from `backend/main.py:130`. -/
noncomputable def log_rmse : ℝ := 0.86

/-- `price` from `backend/main.py:129`: the de-logged point prediction. -/
noncomputable def predicted_price (log_pred : ℝ) : ℝ := expm1 log_pred

/-- `price_lo` from `backend/main.py:131`. -/
noncomputable def price_range_low (log_pred : ℝ) : ℝ := expm1 (log_pred - log_rmse)

/-- `price_hi` from `backend/main.py:132`. -/
noncomputable def price_range_high (log_pred : ℝ) : ℝ := expm1 (log_pred + log_rmse)

/-! ## Helper lemmas -/

theorem ratFloor_eq_floor (q : ℚ) : ratFloor q = ⌊q⌋ := by
  rw [Rat.floor_def]; rfl

theorem ratFloor_le (q : ℚ) : (ratFloor q : ℚ) ≤ q := by
  rw [ratFloor_eq_floor]; exact Int.floor_le q

theorem lt_ratFloor_add_one (q : ℚ) : q < ratFloor q + 1 := by
  rw [ratFloor_eq_floor]; exact_mod_cast Int.lt_floor_add_one q

theorem pyRoundInt_ge_floor (q : ℚ) : ratFloor q ≤ pyRoundInt q := by
  unfold pyRoundInt
  split_ifs <;> omega

theorem pyRoundInt_le_floor_add_one (q : ℚ) : pyRoundInt q ≤ ratFloor q + 1 := by
  unfold pyRoundInt
  split_ifs <;> omega

theorem pyRoundInt_mono : Monotone pyRoundInt := by
  intro q r hqr
  rcases lt_or_le (ratFloor q) (ratFloor r) with hf | hf
  · calc pyRoundInt q ≤ ratFloor q + 1 := pyRoundInt_le_floor_add_one q
      _ ≤ ratFloor r := by omega
      _ ≤ pyRoundInt r := pyRoundInt_ge_floor r
  · have hf' : ratFloor q = ratFloor r := by
      rw [ratFloor_eq_floor, ratFloor_eq_floor] at hf ⊢
      exact le_antisymm (Int.floor_le_floor hqr) hf
    unfold pyRoundInt
    rw [hf']
    have hfrac : q - (ratFloor r : ℚ) ≤ r - (ratFloor r : ℚ) := by linarith
    split_ifs <;> first | omega | linarith

theorem pyRound_mono (n : ℕ) : Monotone (pyRound n) := by
  intro q r hqr
  unfold pyRound
  have h10 : (0:ℚ) < 10 ^ n := by positivity
  have h : ((pyRoundInt (q * 10 ^ n) : ℚ)) ≤ (pyRoundInt (r * 10 ^ n) : ℚ) := by
    exact_mod_cast pyRoundInt_mono (mul_le_mul_of_nonneg_right hqr h10.le)
  gcongr

theorem foldl_skip_append (econYears : List ℕ) (f : ℕ → ℤ) (years : List ℕ)
    (acc : List (ℕ × ℤ)) :
    years.foldl (fun acc y => if y ∈ econYears then acc ++ [(y, f y)] else acc) acc
      = acc ++ (years.filter (fun y => decide (y ∈ econYears))).map (fun y => (y, f y)) := by
  induction years generalizing acc with
  | nil => simp
  | cons y ys ih =>
    by_cases h : y ∈ econYears <;>
      simp [List.foldl_cons, List.filter_cons, h, ih]

theorem livePrices_eq (econYears : List ℕ) (f : ℕ → ℤ) :
    livePrices econYears f
      = (FORECAST_YEARS.filter (fun y => decide (y ∈ econYears))).map (fun y => (y, f y)) := by
  unfold livePrices
  rw [foldl_skip_append]
  simp

theorem map_year_price (g : ℕ × ℤ → ℚ) (l : List (ℕ × ℤ)) :
    (l.map fun yp => (⟨yp.1, yp.2, g yp⟩ : YearEntry)).map (fun y => (y.year, y.price)) = l := by
  induction l with
  | nil => rfl
  | cons x xs ih => simp [ih]

theorem yearly_map_of_sorted (prices : List (ℕ × ℤ))
    (h : prices.Pairwise (fun a b => a.1 < b.1)) :
    (yearly prices).map (fun y => (y.year, y.price)) = prices := by
  simp only [yearly]
  rw [List.Sorted.insertionSort_eq (h.imp fun hab => le_of_lt hab)]
  exact map_year_price _ prices

theorem yearly_years_of_sorted (prices : List (ℕ × ℤ))
    (h : prices.Pairwise (fun a b => a.1 < b.1)) :
    (yearly prices).map YearEntry.year = prices.map Prod.fst := by
  have h' := congrArg (List.map Prod.fst) (yearly_map_of_sorted prices h)
  rw [List.map_map] at h'
  exact h'

theorem expm1_strictMono : StrictMono expm1 := by
  intro a b hab
  unfold expm1
  have := Real.exp_lt_exp.mpr hab
  linarith

theorem investment_signal_spec (g : ℚ) :
    (investment_signal g = "BUY" ↔ 20 ≤ g) ∧
    (investment_signal g = "HOLD" ↔ 10 ≤ g ∧ g < 20) ∧
    (investment_signal g = "WAIT" ↔ g < 10) := by
  unfold investment_signal
  split_ifs with h1 h2
  · refine ⟨by simp [ge_iff_le] at h1 ⊢; exact h1, ?_, ?_⟩ <;>
      · constructor
        · intro h; simp at h
        · intro h; rw [ge_iff_le] at h1; exfalso; first | linarith [h.2] | linarith
  · refine ⟨?_, ?_, ?_⟩
    · constructor
      · intro h; simp at h
      · intro h; rw [ge_iff_le] at h1; exfalso; linarith
    · constructor
      · intro _; rw [ge_iff_le] at h1 h2; constructor <;> first | exact h2 | linarith [not_le.mp h1]
      · intro _; rfl
    · constructor
      · intro h; simp at h
      · intro h; rw [ge_iff_le] at h2; exfalso; linarith
  · refine ⟨?_, ?_, ?_⟩
    · constructor
      · intro h; simp at h
      · intro h; rw [ge_iff_le] at h1; exfalso; linarith
    · constructor
      · intro h; simp at h
      · intro h; rw [ge_iff_le] at h2; exfalso; linarith [h.1]
    · exact ⟨fun _ => by rw [ge_iff_le] at h2; exact lt_of_not_le (fun hc => h2 hc), fun _ => rfl⟩

/-! ## Claim theorems -/

/-- C8: for every valuation request, the encoded feature row passed to the
regressor has exactly the 8 columns of the Feature Schema, in exactly the
schema's order (`property_type, location, bedrooms, bathrooms,
land_size_perches, is_for_rent, quality_tier, is_furnished`), with every
position carrying a value. -/
theorem C8_encoded_row_matches_schema (enc : Encoders) (p : PropertyInput) :
    (encodeRow enc p).map Prod.fst = FEATURES ∧ (encodeRow enc p).length = 8 :=
  ⟨rfl, rfl⟩

/-- C7: an omitted optional numeric field (`bedrooms`, `bathrooms`,
`land_size_perches`) is encoded as the NaN "unknown" sentinel — which is not
the value zero — and a supplied value is passed through unchanged. -/
theorem C7_optional_numeric_sentinel (enc : Encoders) (p : PropertyInput) :
    (p.bedrooms = none → (encodeRow enc p).lookup "bedrooms" = some FVal.nan) ∧
    (∀ q : ℚ, p.bedrooms = some q → (encodeRow enc p).lookup "bedrooms" = some (FVal.num q)) ∧
    (p.bathrooms = none → (encodeRow enc p).lookup "bathrooms" = some FVal.nan) ∧
    (∀ q : ℚ, p.bathrooms = some q → (encodeRow enc p).lookup "bathrooms" = some (FVal.num q)) ∧
    (p.land_size_perches = none →
      (encodeRow enc p).lookup "land_size_perches" = some FVal.nan) ∧
    (∀ q : ℚ, p.land_size_perches = some q →
      (encodeRow enc p).lookup "land_size_perches" = some (FVal.num q)) ∧
    FVal.nan ≠ FVal.num 0 := by
  refine ⟨fun h => ?_, fun q h => ?_, fun h => ?_, fun q h => ?_, fun h => ?_, fun q h => ?_,
    by intro h; cases h⟩ <;>
    simp [encodeRow, List.lookup, ofOpt, h]

/-- C7 witness: on a concrete request that omits `bedrooms` and supplies
`bathrooms = 2` and `land_size_perches = 20`, the encoded row carries the NaN
sentinel for bedrooms and the given values for the other two. -/
theorem C7_optional_numeric_sentinel_witness :
    (encodeRow exEnc exReq7).lookup "bedrooms" = some FVal.nan ∧
    (encodeRow exEnc exReq7).lookup "bathrooms" = some (FVal.num 2) ∧
    (encodeRow exEnc exReq7).lookup "land_size_perches" = some (FVal.num 20) :=
  ⟨(C7_optional_numeric_sentinel exEnc exReq7).1 rfl,
   (C7_optional_numeric_sentinel exEnc exReq7).2.2.2.1 2 rfl,
   (C7_optional_numeric_sentinel exEnc exReq7).2.2.2.2.2.1 20 rfl⟩

/-- C6: when `"Colombo"` is in the location encoder table, a request location
absent from the table is encoded as Colombo's own code, and a location present
in the table is encoded as its own code. -/
theorem C6_unknown_location_falls_back_to_colombo (enc : Encoders) (p : PropertyInput)
    (hC : "Colombo" ∈ enc.location) :
    (p.location ∉ enc.location →
      (encodeRow enc p).lookup "location"
        = some (FVal.num (transform enc.location "Colombo"))) ∧
    (p.location ∈ enc.location →
      (encodeRow enc p).lookup "location"
        = some (FVal.num (transform enc.location p.location))) := by
  constructor <;> intro h <;> simp [encodeRow, List.lookup, safe_encode, h, hC]

/-- C6 witness: `"Nonexistent Town"` is absent from the concrete location
table `["Anuradhapura", "Colombo"]`, so it resolves to Colombo's code 1 —
not to code 0. -/
theorem C6_unknown_location_falls_back_to_colombo_witness :
    (encodeRow exEnc { property_type := "Land", location := "Nonexistent Town" }).lookup "location"
      = some (FVal.num 1) := by
  have h := (C6_unknown_location_falls_back_to_colombo exEnc
    { property_type := "Land", location := "Nonexistent Town" } (by decide)).1 (by decide)
  rw [h, show transform exEnc.location "Colombo" = 1 from rfl]
  norm_num

/-- C9: every forecast response carries exactly one of the three signal
labels, determined solely by the growth percentage through the fixed
thresholds `growth ≥ 20 → "BUY"`, `10 ≤ growth < 20 → "HOLD"`,
`growth < 10 → "WAIT"`. -/
theorem C9_signal_thresholds (cache : Cache) (econYears : List ℕ)
    (predPrice : ForecastInput → ℕ → ℤ) (inp : ForecastInput) :
    ((forecast cache econYears predPrice inp).investment_signal = "BUY"
      ↔ 20 ≤ (forecast cache econYears predPrice inp).growth_4yr_pct) ∧
    ((forecast cache econYears predPrice inp).investment_signal = "HOLD"
      ↔ 10 ≤ (forecast cache econYears predPrice inp).growth_4yr_pct ∧
          (forecast cache econYears predPrice inp).growth_4yr_pct < 20) ∧
    ((forecast cache econYears predPrice inp).investment_signal = "WAIT"
      ↔ (forecast cache econYears predPrice inp).growth_4yr_pct < 10) := by
  have hs : (forecast cache econYears predPrice inp).investment_signal
      = investment_signal (forecast cache econYears predPrice inp).growth_4yr_pct := rfl
  rw [hs]
  exact investment_signal_spec _

/-- C5: on a cache hit (with the cached year keys distinct and ascending, as
in the artifact), the forecast response returns the stored growth percentage
exactly and the cached per-year prices, and does not depend on the forecast
regressor at all. -/
theorem C5_cache_fast_path (cache : Cache) (econYears : List ℕ)
    (f g : ForecastInput → ℕ → ℤ) (inp : ForecastInput) (e : CacheEntry)
    (hhit : lookup2 cache inp.district inp.property_type = some e)
    (hkeys : e.prices.Pairwise (fun a b => a.1 < b.1)) :
    (forecast cache econYears f inp).growth_4yr_pct = e.growth_4yr_pct ∧
    (forecast cache econYears f inp).yearly.map (fun y => (y.year, y.price)) = e.prices ∧
    forecast cache econYears f inp = forecast cache econYears g inp := by
  unfold forecast
  rw [hhit]
  exact ⟨rfl, yearly_map_of_sorted e.prices hkeys, rfl⟩

/-- C5 witness: with a concrete one-entry cache for (Colombo, Land), the
response growth is the stored 50, the per-year prices are the cached ones,
and two different regressors give the same response. -/
theorem C5_cache_fast_path_witness :
    (forecast exCache [] (fun _ _ => 0) exForecastReq).growth_4yr_pct = 50 ∧
    (forecast exCache [] (fun _ _ => 0) exForecastReq).yearly.map (fun y => (y.year, y.price))
      = [(2026, 100), (2030, 150)] ∧
    forecast exCache [] (fun _ _ => 0) exForecastReq
      = forecast exCache [] (fun _ _ => 1) exForecastReq :=
  C5_cache_fast_path exCache [] (fun _ _ => 0) (fun _ _ => 1) exForecastReq
    { prices := [(2026, 100), (2030, 150)], growth_4yr_pct := 50 } rfl (by decide)

/-- C2 counterexample: the unknown property type `"Castle"`, which has no
fallback, is not rejected: `safe_encode` returns code 0 and the encoded row
carries it, so the unknown value is silently mapped to a code. -/
theorem C2_unknown_ptype_silently_encoded_cex :
    safe_encode ["Apartment", "House", "Land"] "Castle" none = 0 ∧
    (encodeRow exEnc { property_type := "Castle", location := "Colombo" }).lookup "property_type"
      = some (FVal.num 0) := by
  refine ⟨rfl, ?_⟩
  simp [encodeRow, List.lookup, safe_encode, exEnc]

/-- C2 amended: a categorical request value absent from its encoder table,
with no fallback defined (the `property_type` field), is silently encoded as
the sentinel code 0; the handler is total on such inputs and never raises. -/
theorem C2_unknown_ptype_encoded_as_zero (enc : Encoders) (p : PropertyInput)
    (h : p.property_type ∉ enc.property_type) :
    (encodeRow enc p).lookup "property_type" = some (FVal.num 0) := by
  simp [encodeRow, List.lookup, safe_encode, h]

/-- C2 witness: the amended statement at the concrete unknown value
`"Castle"` against the concrete property-type table. -/
theorem C2_unknown_ptype_encoded_as_zero_witness :
    (encodeRow exEnc { property_type := "Castle", location := "Galle" }).lookup "property_type"
      = some (FVal.num 0) :=
  C2_unknown_ptype_encoded_as_zero exEnc
    { property_type := "Castle", location := "Galle" } (by decide)

/-- C3 counterexample: with the base year 2026 missing from the computed
prices (here only 2030 is present, at price 50), the live-path growth is
`(50 - 1) / 1 * 100 = 4900`, not `0`: a missing base year falls back to the
default `1`, not to zero growth. -/
theorem C3_missing_base_year_cex :
    (forecast [] [2030] (fun _ _ => 50)
        { district := "Nuwara Eliya", property_type := "Land" }).growth_4yr_pct = 4900 ∧
    (4900 : ℚ) ≠ 0 := by
  constructor
  · have h : (forecast [] [2030] (fun _ _ => 50)
        { district := "Nuwara Eliya", property_type := "Land" }).growth_4yr_pct
        = growth_4yr_live [(2030, 50)] := rfl
    rw [h, growth_4yr_live]
    rw [show List.lookup (2026 : ℕ) [((2030 : ℕ), (50 : ℤ))] = none from rfl]
    rw [show List.lookup (2030 : ℕ) [((2030 : ℕ), (50 : ℤ))] = some (50 : ℤ) from rfl]
    norm_num [pyRound, pyRoundInt, ratFloor]
  · norm_num

/-- C3 amended: the live-path growth computation returns 0 when the
base-year (2026) value is present and zero (the `p2026 > 0` guard, so no
division by zero is performed), and also when both the base and horizon
years are missing; a missing base year alone is replaced by the default `1`
and growth is computed against that default. -/
theorem C3_zero_guard :
    (∀ prices : List (ℕ × ℤ), prices.lookup 2026 = some 0 →
      growth_4yr_live prices = 0) ∧
    (∀ prices : List (ℕ × ℤ), prices.lookup 2026 = none → prices.lookup 2030 = none →
      growth_4yr_live prices = 0) := by
  constructor
  · intro prices h
    simp only [growth_4yr_live, h, Option.getD_some]
    norm_num
  · intro prices h26 h30
    simp only [growth_4yr_live, h26, h30, Option.getD_none]
    norm_num [pyRound, pyRoundInt, ratFloor]

/-- C3 witness: the zero guard at a concrete zero base year, and the
missing-both case at a concrete price list containing neither 2026 nor
2030. -/
theorem C3_zero_guard_witness :
    growth_4yr_live [(2026, 0), (2030, 7)] = 0 ∧ growth_4yr_live [(2027, 5)] = 0 :=
  ⟨C3_zero_guard.1 [(2026, 0), (2030, 7)] rfl, C3_zero_guard.2 [(2027, 5)] rfl rfl⟩

/-- C4 counterexample: with the economic reference table lacking the year
2030 (it has 2026–2029), the live forecast path returns a normal response
whose yearly series simply omits 2030 — no `InvalidInput` failure occurs. -/
theorem C4_missing_econ_year_silently_skipped_cex :
    (forecast [] [2026, 2027, 2028, 2029] (fun _ _ => 100) exForecastReq).yearly.map
        YearEntry.year = [2026, 2027, 2028, 2029] ∧
    2030 ∉ (forecast [] [2026, 2027, 2028, 2029] (fun _ _ => 100) exForecastReq).yearly.map
        YearEntry.year := by
  constructor <;> decide

/-- C4 amended: in the live-compute path, a requested year with no row in
the economic reference table is silently skipped: the yearly series consists
of exactly the requested years that are present in the table, in order, and
the handler is total (no error is raised). -/
theorem C4_missing_econ_years_skipped (cache : Cache) (econYears : List ℕ)
    (predPrice : ForecastInput → ℕ → ℤ) (inp : ForecastInput)
    (hmiss : lookup2 cache inp.district inp.property_type = none) :
    (forecast cache econYears predPrice inp).yearly.map YearEntry.year
      = FORECAST_YEARS.filter (fun y => decide (y ∈ econYears)) := by
  unfold forecast
  rw [hmiss]
  have hsorted : (livePrices econYears (predPrice inp)).Pairwise (fun a b => a.1 < b.1) := by
    rw [livePrices_eq]
    refine List.pairwise_map.mpr ?_
    exact (List.Pairwise.filter _ (by decide : FORECAST_YEARS.Pairwise (· < ·)))
  rw [yearly_years_of_sorted _ hsorted, livePrices_eq, List.map_map]
  rw [show (Prod.fst ∘ fun y => (y, predPrice inp y)) = id from rfl, List.map_id]

/-- C4 witness: the amended statement at a concrete table containing only
2026 and 2027. -/
theorem C4_missing_econ_years_skipped_witness :
    (forecast [] [2026, 2027] (fun _ _ => 5) exForecastReq).yearly.map YearEntry.year
      = [2026, 2027] := by
  have h := C4_missing_econ_years_skipped [] [2026, 2027] (fun _ _ => 5) exForecastReq rfl
  exact h.trans (by decide)

/-- C1 counterexample: two valid requests whose encoded rows get different
raw model outputs (0 and 1 under the concrete regressor `exModel`) receive
the identical `shap_features` list — the globally precomputed importance
table — so no baseline value can make `baseline + sum(contributions)` equal
the raw model output for both requests. -/
theorem C1_attribution_reconciliation_cex :
    ¬ ∃ baseline : ℚ,
      baseline + contribSum (predict exModel exImp exEnc exReq1).shap_features
          = (predict exModel exImp exEnc exReq1).log_pred ∧
      baseline + contribSum (predict exModel exImp exEnc exReq2).shap_features
          = (predict exModel exImp exEnc exReq2).log_pred := by
  rintro ⟨b, h1, h2⟩
  have e1 : (predict exModel exImp exEnc exReq1).log_pred = 0 := by
    have : (predict exModel exImp exEnc exReq1).log_pred = ((0 : ℕ) : ℚ) := rfl
    rw [this]; norm_num
  have e2 : (predict exModel exImp exEnc exReq2).log_pred = 1 := by
    have : (predict exModel exImp exEnc exReq2).log_pred = ((1 : ℕ) : ℚ) := rfl
    rw [this]; norm_num
  have esame : (predict exModel exImp exEnc exReq1).shap_features
      = (predict exModel exImp exEnc exReq2).shap_features := rfl
  rw [e1] at h1
  rw [e2, ← esame] at h2
  have : (0 : ℚ) = 1 := by rw [← h1, ← h2]
  norm_num at this

/-- C1 amended: the `shap_features` list of the `/predict` response is the
globally precomputed mean-|SHAP| importance table, identical for every
request (it carries no per-request signed contributions and the response
carries no baseline), and it is ranked in descending order of importance. -/
theorem C1_shap_features_global_ranking (model : List (String × FVal) → ℚ)
    (imp : List (String × ℚ)) (enc : Encoders) (p1 p2 : PropertyInput) :
    (predict model imp enc p1).shap_features = (predict model imp enc p2).shap_features ∧
    (predict model imp enc p1).shap_features.Pairwise (fun a b => b.2 ≤ a.2) := by
  refine ⟨rfl, ?_⟩
  show (shap_bar imp).Pairwise fun a b => b.2 ≤ a.2
  unfold shap_bar
  haveI : IsTotal (String × ℚ) (fun a b => b.2 ≤ a.2) := ⟨fun a b => le_total b.2 a.2⟩
  haveI : IsTrans (String × ℚ) (fun a b => b.2 ≤ a.2) :=
    ⟨fun _ _ _ hab hbc => le_trans hbc hab⟩
  have hsorted : (imp.insertionSort (fun a b => b.2 ≤ a.2)).Pairwise
      (fun a b : String × ℚ => b.2 ≤ a.2) :=
    List.sorted_insertionSort (fun a b : String × ℚ => b.2 ≤ a.2) imp
  exact List.Pairwise.map _ (fun a b hab => pyRound_mono 4 hab) hsorted

/-- C10: the price interval strictly brackets the point prediction, because
all three are images of `log_pred - 0.86 < log_pred < log_pred + 0.86` under
the strictly increasing `expm1`. -/
theorem C10_price_range_brackets_prediction (log_pred : ℝ) :
    price_range_low log_pred < predicted_price log_pred ∧
    predicted_price log_pred < price_range_high log_pred := by
  have hr : (0 : ℝ) < log_rmse := by norm_num [log_rmse]
  constructor
  · exact expm1_strictMono (by linarith)
  · exact expm1_strictMono (by linarith)

end SBDP
